import Mathlib

/-!
Shallow embedding of the `selenium_login` service (a FastAPI endpoint driving a
headless browser to log in to third-party sites) and verification of its
specification's claims.

Sources embedded:
- `app/selenium_client.py` : `cookies_to_header` (cookie header serialization).
- `app/main.py`            : the `/login` endpoint handler, `LOGIN_PROVIDERS`.
- `app/logins/smergers.py` : `SmergersLogin.login` and its helpers.
- `app/logins/flippa.py`   : `FlippaLogin.login`.

The browser is an external, uncontrolled system; its responses (element query
results, current URL, page title, cookie jar, whether individual interactions
raise) are modelled as oracle fields of a "world" record, and each Python
function is translated into a Lean function of that world which returns the
value or exception the Python code would produce, together with a trace of the
observable driver interactions (clicks, probes, `driver.quit`, ...). Python
strings are modelled as `List Char`; Python exceptions as an error inductive
with one constructor per distinct raise site.
-/

namespace SeleniumLogin

/-- Python strings, modelled as lists of characters. -/
abbrev PyStr := List Char

/-- Turn a Lean string literal into the `List Char` model of a Python string. -/
def pstr (s : String) : PyStr := s.data

deriving instance DecidableEq for Except

/-! ## String utilities (Python `in`, `lower`, `strip`, `startswith`, `endswith`) -/

/-- Python's substring test `pat in l`. -/
def containsSub : PyStr → PyStr → Bool
  | pat, [] => pat.isPrefixOf ([] : PyStr)
  | pat, c :: rest => pat.isPrefixOf (c :: rest) || containsSub pat rest

/-- Python's `str.lower()` (ASCII case folding suffices for the strings involved). -/
def lowerStr (l : PyStr) : PyStr := l.map Char.toLower

/-- Whitespace characters stripped by Python's `str.strip()`. -/
def isWs (c : Char) : Bool :=
  c = ' ' || c = '\t' || c = '\n' || c = '\r' || c = '\x0b' || c = '\x0c'

/-- Python's `str.strip()`. -/
def stripStr (l : PyStr) : PyStr :=
  ((l.dropWhile isWs).reverse.dropWhile isWs).reverse

/-! ## Cookie serialization (`app/selenium_client.py`) -/

/-- A Selenium cookie dict as far as `cookies_to_header` inspects it:
`c.get("name")` and `c.get("value")` may each be absent (`None`). -/
structure Cookie where
  name : Option PyStr
  value : Option PyStr
  deriving DecidableEq, Repr

/-- The `f"{name}={value}"` part contributed by one cookie, or `none` when the
cookie is skipped (`name is None or value is None`). -/
def cookiePart (c : Cookie) : Option PyStr :=
  match c.name, c.value with
  | some n, some v => some (n ++ '=' :: v)
  | _, _ => none

/-- Python's `"; ".join(parts)` specialized to the two-character separator. -/
def joinSep : List PyStr → PyStr
  | [] => []
  | [x] => x
  | x :: y :: rest => x ++ ';' :: ' ' :: joinSep (y :: rest)

/-- `cookies_to_header` from `app/selenium_client.py`: keep the cookies with
both a name and a value, render each as `name=value`, join with `"; "`. -/
def cookies_to_header (cs : List Cookie) : PyStr :=
  joinSep (cs.filterMap cookiePart)

/-- Whether the two-character separator `"; "` occurs in the string. -/
def hasSep : PyStr → Bool
  | [] => false
  | [_] => false
  | c :: d :: rest => (c = ';' && d = ' ') || hasSep (d :: rest)

/-- Split a string on every occurrence of the separator `"; "` (Python's
`s.split("; ")`). -/
def splitSep : PyStr → List PyStr
  | [] => [[]]
  | [c] => [[c]]
  | c :: d :: rest =>
    if c = ';' && d = ' ' then [] :: splitSep rest
    else
      match splitSep (d :: rest) with
      | [] => [[c]]
      | h :: t => (c :: h) :: t

/-- Split a string at its first `'='` (Python's `s.split("=", 1)`); a string
with no `'='` yields the whole string as the name and an empty value. -/
def splitEq : PyStr → PyStr × PyStr
  | [] => ([], [])
  | c :: rest =>
    if c = '=' then ([], rest)
    else
      let p := splitEq rest
      (c :: p.1, p.2)

/-- Modelled from the spec: the repository contains no cookie-header parser, but
the spec (section 6) calls the `name=value`-joined-with-`"; "` format "the
contract a caller relies on to reconstruct a `Cookie` request header". This is
that reconstruction: split the header on `"; "`, split each part at its first
`'='` into a name and a value (a part without `'='` becomes a cookie with that
name and an empty value); the empty header yields no cookies. -/
def parseCookieHeader (h : PyStr) : List Cookie :=
  if h.isEmpty then []
  else (splitSep h).map (fun chunk => ⟨some (splitEq chunk).1, some (splitEq chunk).2⟩)

/-- The `name=value` rendering of a cookie whose name and value are present. -/
def pairStr (c : Cookie) : PyStr :=
  (c.name.getD []) ++ '=' :: (c.value.getD [])

/-- A cookie whose name and value are both present and free of the separator
`"; "` (the well-formedness under which the serialization round-trips). -/
def goodCookie (c : Cookie) : Bool :=
  match c.name, c.value with
  | some n, some v => !hasSep n && !hasSep v
  | _, _ => false

/-! ## DOM elements and the SMERGERS interaction engine (`app/logins/smergers.py`)

A `WebElement`, as far as the provider inspects it: its (already rendered)
visible text, whether `is_displayed()` / `is_enabled()` return true, and
whether `_safe_click` on it succeeds (native click or the JavaScript
fallback) — the latter is an oracle for the browser's behaviour. -/

structure Element where
  text : PyStr
  displayed : Bool
  enabled : Bool
  clickOk : Bool
  deriving DecidableEq, Repr

/-- `SmergersLogin.EMAIL_SELECTORS`. -/
def EMAIL_SELECTORS : List PyStr :=
  [ pstr "input[type='email']"
  , pstr "input[name='email']"
  , pstr "input[id*='email' i]"
  , pstr "input[placeholder*='email' i]"
  , pstr "input[autocomplete='username']"
  , pstr "input[type='text']" ]

/-- `SmergersLogin.PASSWORD_SELECTORS`. -/
def PASSWORD_SELECTORS : List PyStr :=
  [ pstr "input[type='password']"
  , pstr "input[name='password']"
  , pstr "input[id*='password' i]"
  , pstr "input[autocomplete='current-password']" ]

/-- `SmergersLogin.SUBMIT_SELECTORS`. -/
def SUBMIT_SELECTORS : List PyStr :=
  [ pstr "button[type='submit']"
  , pstr "input[type='submit']" ]

/-- The text normalization `(el.text or "").strip().lower()` used by
`_click_login_tab`. -/
def normTxt (t : PyStr) : PyStr := lowerStr (stripStr t)

/-- The `is_login_tab` filter inside `SmergersLogin._click_login_tab`: the
element must be displayed and enabled, its normalized text must not contain
`"login with"`, and must equal `"login"` or end with `" login"` or start with
`"login "`. -/
def is_login_tab (e : Element) : Bool :=
  e.displayed && e.enabled &&
    (let txt := normTxt e.text
     !(containsSub (pstr "login with") txt) &&
       (txt == pstr "login" ||
        (pstr " login").isSuffixOf txt ||
        (pstr "login ").isPrefixOf txt))

/-- The predicate of the fallback loop at the end of `_click_login_tab`: a
modal tab whose normalized text is exactly `"login"`, displayed and enabled,
on which `_safe_click` succeeds. -/
def fallbackTabPred (e : Element) : Bool :=
  normTxt e.text == pstr "login" && e.displayed && e.enabled && e.clickOk

/-- `SmergersLogin._click_login_tab`: walk the XPath candidates, click the
first displayed/enabled element passing `is_login_tab` whose click succeeds;
if none, walk the modal's `a,button,li,div` descendants and click the first
whose text is exactly `"login"`. Returns the element actually clicked. -/
def click_login_tab (candidates tabs : List Element) : Option Element :=
  match candidates.find? (fun e => is_login_tab e && e.clickOk) with
  | some e => some e
  | none => tabs.find? fallbackTabPred

/-- The prefix of a list on which a click is attempted: every element up to
and including the first on which the click succeeds (all of them when none
succeeds). -/
def attemptsUpTo (p : Element → Bool) : List Element → List Element
  | [] => []
  | e :: rest => if p e then [e] else e :: attemptsUpTo p rest

/-- The elements `_click_login_tab` attempts to click, in order: the
`is_login_tab` candidates up to the first successful click, then (when none
succeeded) the fallback tabs passing the displayed/enabled/text test up to the
first successful click. -/
def tabAttempts (candidates tabs : List Element) : List Element :=
  let ps := candidates.filter is_login_tab
  if ps.any (fun e => e.clickOk) then attemptsUpTo (fun e => e.clickOk) ps
  else
    ps ++ attemptsUpTo (fun e => e.clickOk)
      (tabs.filter (fun e => normTxt e.text == pstr "login" && e.displayed && e.enabled))

/-- The exceptions the embedded code can raise, one constructor per raise
site: the two `RuntimeError`s of `smergers.py` (Google-OAuth redirect in
`_fail_if_google`, and the LOGIN-tab failure in `_ensure_login_tab`), the
`TimeoutException` of `_find_visible_in`, the `TimeoutException` of
`_wait_present`, and an unhandled driver exception from `el.send_keys`. -/
inductive SmErr where
  | googleRedirect (url title : PyStr)
  | loginTabFailed (url title : PyStr)
  | timeoutNoVisible
  | waitTimeout
  | sendKeysFailed
  deriving DecidableEq, Repr

/-- The message of each exception, from the corresponding Python format
string. -/
def SmErr.message : SmErr → PyStr
  | .googleRedirect url title =>
      pstr "SMERGERS: Redirected into Google OAuth. Do not click social login buttons; ensure the modal LOGIN tab is selected. url='" ++
        url ++ pstr "' title='" ++ title ++ pstr "'"
  | .loginTabFailed url title =>
      pstr "SMERGERS: LOGIN tab did not reveal an email/password form. The site may be forcing social/OTP login for this session or the selectors changed. url='" ++
        url ++ pstr "' title='" ++ title ++ pstr "'"
  | .timeoutNoVisible => pstr "No visible/enabled element found for selectors (container-scoped)"
  | .waitTimeout => pstr "TimeoutException"
  | .sendKeysFailed => pstr "WebDriverException"

/-- The observable driver interactions of one SMERGERS login attempt. -/
inductive Ev where
  | navigate
  | tabClick (e : Element)
  | fieldLocate
  | focusType
  | enterKey
  | submitFallback
  | verifyWait
  | getCookies
  deriving DecidableEq, Repr

/-- Whether an event is a tab-activation click. -/
def isTabClickEv : Ev → Bool
  | .tabClick _ => true
  | _ => false

/-- Whether an event is the fallback submit-control click. -/
def isSubmitFallbackEv : Ev → Bool
  | .submitFallback => true
  | _ => false

/-- The condition of `SmergersLogin._fail_if_google`:
`"accounts.google.com" in url.lower() or "google accounts" in title.lower()`. -/
def onGoogle (url title : PyStr) : Bool :=
  containsSub (pstr "accounts.google.com") (lowerStr url) ||
    containsSub (pstr "google accounts") (lowerStr title)

/-- First displayed-and-enabled element of a query result (the inner loop of
`_find_visible_in`). -/
def firstVisible (els : List Element) : Option Element :=
  els.find? (fun e => e.displayed && e.enabled)

/-- One polling pass of `_find_visible_in`: try the selectors in order, return
the first visible and enabled element any of them yields. -/
def scanSels (f : PyStr → List Element) : List PyStr → Option Element
  | [] => none
  | s :: rest =>
    match firstVisible (f s) with
    | some e => some e
    | none => scanSels f rest

/-- `SmergersLogin._find_visible_in`: poll the container with the ordered
selector list until a visible and enabled element appears or the bounded
timeout (modelled as a poll-count fuel) runs out, in which case it raises
`TimeoutException`. `q t sel` is the oracle for `container.find_elements(sel)`
with `t` polls of fuel remaining. -/
def find_visible_in (q : Nat → PyStr → List Element) (sels : List PyStr) : Nat → Except Unit Element
  | 0 => .error ()
  | t + 1 =>
    match scanSels (q t) sels with
    | some e => .ok e
    | none => find_visible_in q sels t

/-- The poll budget of a 25-second `_find_visible_in` call at one poll per
0.2 s. -/
def findFuel : Nat := 125

/-- The oracle for everything the SMERGERS site and browser do during one
login attempt, sampled at the points where `SmergersLogin.login` observes
them. -/
structure SmWorld where
  /-- Whether `_wait_present(driver, "body")` finds a body before its timeout. -/
  bodyPresent : Bool
  /-- `driver.current_url` and `driver.title` right after navigation. -/
  url0 : PyStr
  title0 : PyStr
  /-- `_has_visible_password` on entry to `_ensure_login_tab`. -/
  hasPw0 : Bool
  /-- `_has_visible_password` after the first `_click_login_tab` round. -/
  hasPw1 : Bool
  /-- `_has_visible_password` at the final check of `_ensure_login_tab`. -/
  hasPw2 : Bool
  /-- The XPath candidates of the unscoped `_click_login_tab` call. -/
  tabCandidates : List Element
  /-- The modal descendants used by the `scope_modal_only=True` call. -/
  scopedTabs : List Element
  /-- The modal's `a,button,li,div` elements used by the fallback loop. -/
  modalTabs : List Element
  /-- `driver.current_url` / `driver.title` at the `_ensure_login_tab` raise. -/
  url1 : PyStr
  title1 : PyStr
  /-- `container.find_elements` oracles for the email and password probes. -/
  qEmail : Nat → PyStr → List Element
  qPass : Nat → PyStr → List Element
  /-- Whether `el.send_keys(text)` succeeds for the email and password fields. -/
  sendTextEmailOk : Bool
  sendTextPassOk : Bool
  /-- Whether `pass_el.send_keys(Keys.ENTER)` succeeds. -/
  enterOk : Bool
  /-- Whether the page state actually changed after the Enter key (observed by
  nothing in the code; the spec's submission fallback is stated in terms of
  it). -/
  pageChangedAfterEnter : Bool
  /-- Whether `_wait_logged_in`'s condition became true within its timeout. -/
  verifiedInTime : Bool
  /-- `driver.current_url` / `driver.title` after `_wait_logged_in`. -/
  urlF : PyStr
  titleF : PyStr
  /-- `driver.get_cookies()` at the end. -/
  cookies : List Cookie

/-- `SmergersLogin._ensure_login_tab`: skip everything when a password field
is already visible; otherwise click the LOGIN tab (rescoping to the modal when
the first round neither clicked nor revealed a password field) and raise
`RuntimeError` when no password field ever becomes visible. Returns the
tab-click events performed. -/
def ensure_login_tab (w : SmWorld) : Except SmErr Unit × List Ev :=
  if w.hasPw0 then (.ok (), [])
  else
    let ev1 := (tabAttempts w.tabCandidates w.modalTabs).map Ev.tabClick
    let clicked := (click_login_tab w.tabCandidates w.modalTabs).isSome
    let ev2 :=
      if !w.hasPw1 && !clicked then (tabAttempts w.scopedTabs w.modalTabs).map Ev.tabClick
      else []
    ((if w.hasPw2 then .ok () else .error (.loginTabFailed w.url1 w.title1)),
      ev1 ++ ev2)

/-- `SmergersLogin.login`: navigate, wait for a body, fail on a Google-OAuth
redirect, ensure the LOGIN tab, locate the email and password fields, type the
credentials, submit (Enter on the password field, falling back to clicking a
submit control only when the Enter keystroke raises), wait for the logged-in
condition (a timeout there is swallowed), fail on a Google-OAuth redirect, and
return the session cookies. -/
def smergers_login (w : SmWorld) : Except SmErr (List Cookie) × List Ev :=
  if !w.bodyPresent then (.error .waitTimeout, [Ev.navigate])
  else if onGoogle w.url0 w.title0 then
    (.error (.googleRedirect w.url0 w.title0), [Ev.navigate])
  else
    let tab := ensure_login_tab w
    let tr1 := Ev.navigate :: tab.2
    match tab.1 with
    | .error e => (.error e, tr1)
    | .ok _ =>
      match find_visible_in w.qEmail EMAIL_SELECTORS findFuel with
      | .error _ => (.error .timeoutNoVisible, tr1 ++ [Ev.fieldLocate])
      | .ok _ =>
        match find_visible_in w.qPass PASSWORD_SELECTORS findFuel with
        | .error _ => (.error .timeoutNoVisible, tr1 ++ [Ev.fieldLocate, Ev.fieldLocate])
        | .ok _ =>
          let tr2 := tr1 ++ [Ev.fieldLocate, Ev.fieldLocate, Ev.focusType]
          if !w.sendTextEmailOk then (.error .sendKeysFailed, tr2)
          else
            let tr3 := tr2 ++ [Ev.focusType]
            if !w.sendTextPassOk then (.error .sendKeysFailed, tr3)
            else
              let tr4 := tr3 ++ (if w.enterOk then [Ev.enterKey] else [Ev.submitFallback])
              let tr5 := tr4 ++ [Ev.verifyWait]
              if onGoogle w.urlF w.titleF then
                (.error (.googleRedirect w.urlF w.titleF), tr5)
              else (.ok w.cookies, tr5 ++ [Ev.getCookies])

/-- Whether a SMERGERS attempt gets past credential entry, i.e. reaches the
submission and verification steps (from there on no step can fail except the
final Google-redirect check). -/
def reachesSubmit (w : SmWorld) : Bool :=
  w.bodyPresent && !onGoogle w.url0 w.title0 && (w.hasPw0 || w.hasPw2) &&
    (find_visible_in w.qEmail EMAIL_SELECTORS findFuel).isOk &&
    (find_visible_in w.qPass PASSWORD_SELECTORS findFuel).isOk &&
    w.sendTextEmailOk && w.sendTextPassOk

/-! ## The Flippa provider (`app/logins/flippa.py`) -/

/-- The oracle for everything flippa.com and the browser do during one
`FlippaLogin.login` call, sampled where the code observes them. Each of the
unguarded driver calls (`driver.get`, the three `find_element`s, the
clear/`send_keys` pairs, the button click) either succeeds or raises;
`verifiedInTime` records whether the `WebDriverWait` condition (`"login" not
in url`) became true before its 30-second timeout. -/
structure FlippaWorld where
  navOk : Bool
  emailFound : Bool
  passFound : Bool
  typeEmailOk : Bool
  typePassOk : Bool
  buttonFound : Bool
  clickButtonOk : Bool
  verifiedInTime : Bool
  cookies : List Cookie

/-- The exceptions `FlippaLogin.login` can let escape. -/
inductive FlErr where
  | navError
  | noSuchElement
  | notInteractable
  deriving DecidableEq, Repr

/-- `FlippaLogin.login`: navigate, find the email and password inputs, type
the credentials, find and click the submit button, wait for the URL to move
away from `login` — any exception in that wait (its timeout included) is
swallowed and answered with a sleep — and return `driver.get_cookies()`. -/
def flippa_login (w : FlippaWorld) : Except FlErr (List Cookie) :=
  if !w.navOk then .error .navError
  else if !w.emailFound then .error .noSuchElement
  else if !w.passFound then .error .noSuchElement
  else if !w.typeEmailOk then .error .notInteractable
  else if !w.typePassOk then .error .notInteractable
  else if !w.buttonFound then .error .noSuchElement
  else if !w.clickButtonOk then .error .notInteractable
  else .ok w.cookies

/-- Whether a Flippa attempt reaches the verification wait (everything before
the `WebDriverWait` succeeded). -/
def flippaReachesWait (w : FlippaWorld) : Bool :=
  w.navOk && w.emailFound && w.passFound && w.typeEmailOk && w.typePassOk &&
    w.buttonFound && w.clickButtonOk

/-! ## The HTTP endpoint (`app/main.py`) -/

/-- The provider classes present in the source tree. -/
inductive Provider where
  | flippa
  | smergers
  deriving DecidableEq, Repr

/-- `LOGIN_PROVIDERS` from `app/main.py`: the registry maps `FlippaLogin.site_key`
to a `FlippaLogin` instance and nothing else. -/
def LOGIN_PROVIDERS : List (PyStr × Provider) :=
  [(pstr "flippa", Provider.flippa)]

/-- The registry lookup `req.site in LOGIN_PROVIDERS` /
`LOGIN_PROVIDERS[req.site]`. -/
def lookupProvider (site : PyStr) : Option Provider :=
  (LOGIN_PROVIDERS.find? (fun kv => kv.1 == site)).map (fun kv => kv.2)

/-- The driver-lifecycle events of one request: `create_driver()`, the call
into `provider.login(driver, ...)`, and `driver.quit()`. -/
inductive DrvEv where
  | created
  | providerCall (p : Provider)
  | quit
  deriving DecidableEq, Repr

/-- The response model of the endpoint (`LoginResponse` in `app/main.py`). -/
structure LoginResponse where
  site : PyStr
  cookie_header : PyStr
  cookies : List Cookie
  deriving DecidableEq, Repr

/-- What the endpoint hands back to FastAPI: a response, an
`HTTPException(status_code, detail)`, or a propagated provider exception
(which FastAPI turns into a server error). -/
inductive HandlerResult where
  | response (r : LoginResponse)
  | httpError (status : Nat) (detail : PyStr)
  | raised (e : SmErr)
  deriving DecidableEq, Repr

/-- The `/login` endpoint handler (`login` in `app/main.py`): reject unknown
sites with a 400 before any driver exists; otherwise create a driver, run the
provider inside `try/finally driver.quit()`, and build the response from the
cookies. `run` is the oracle for what `provider.login` returns or raises. -/
def login (site : PyStr) (run : Provider → Except SmErr (List Cookie)) :
    HandlerResult × List DrvEv :=
  match lookupProvider site with
  | none =>
    (.httpError 400 (pstr "Unknown site '" ++ site ++ pstr "'"), [])
  | some p =>
    match run p with
    | .error e => (.raised e, [.created, .providerCall p, .quit])
    | .ok cookies =>
      (.response ⟨site, cookies_to_header cookies, cookies⟩,
        [.created, .providerCall p, .quit])

/-! ## Concrete worlds used by witnesses and counterexamples -/

/-- A benign SMERGERS world: page loads, a password field is visible at once,
both field probes resolve immediately, every interaction succeeds, and the
attempt ends on the SMERGERS dashboard. -/
def baseWorld : SmWorld where
  bodyPresent := true
  url0 := pstr "https://www.smergers.com/login/"
  title0 := pstr "SMERGERS - Buy or Sell Businesses"
  hasPw0 := true
  hasPw1 := true
  hasPw2 := true
  tabCandidates := []
  scopedTabs := []
  modalTabs := []
  url1 := []
  title1 := []
  qEmail := fun _ _ => [⟨pstr "email", true, true, true⟩]
  qPass := fun _ _ => [⟨pstr "password", true, true, true⟩]
  sendTextEmailOk := true
  sendTextPassOk := true
  enterOk := true
  pageChangedAfterEnter := true
  verifiedInTime := true
  urlF := pstr "https://www.smergers.com/dashboard/"
  titleF := pstr "SMERGERS"
  cookies := [⟨some (pstr "sessionid"), some (pstr "abc")⟩]

/-- A world where navigation landed on Google's OAuth sign-in page. -/
def wGoogle : SmWorld :=
  { baseWorld with
    url0 := pstr "https://accounts.google.com/signin/identifier"
    title0 := pstr "Google Accounts" }

/-! ## Helper lemmas about the endpoint handler -/

/-- For a registered site the handler's trace holds exactly one `driver.quit`,
whatever the provider returns or raises. -/
theorem login_quit_once (site : PyStr) (p : Provider)
    (run : Provider → Except SmErr (List Cookie))
    (h : lookupProvider site = some p) :
    (login site run).2.count DrvEv.quit = 1 := by
  unfold login
  rw [h]
  cases hr : run p <;> simp [hr, List.count_cons]

/-- A looked-up provider can only be the registered `FlippaLogin` instance. -/
theorem lookupProvider_eq_flippa (site : PyStr) (p : Provider)
    (h : lookupProvider site = some p) : p = Provider.flippa := by
  unfold lookupProvider LOGIN_PROVIDERS at h
  cases hbe : (pstr "flippa" == site) <;>
    simp [List.find?, hbe] at h
  exact h.symm

/-- An unregistered site key never reaches the provider lookup's `some` branch. -/
theorem lookupProvider_none (site : PyStr) (h : ¬site = pstr "flippa") :
    lookupProvider site = none := by
  unfold lookupProvider LOGIN_PROVIDERS
  have hbe : (pstr "flippa" == site) = false := by
    rw [beq_eq_false_iff_ne]
    exact fun hh => h hh.symm
  simp [List.find?, hbe]

/-! ## C1 -/

/-- C1: for every login request for a registered site, the browser session
created by `create_driver` is released (`driver.quit` is called) exactly once
on every exit path of the request handler — the oracle `run` ranges over all
provider outcomes, the raising ones included. -/
theorem c1_quit_exactly_once (site : PyStr) (p : Provider)
    (run : Provider → Except SmErr (List Cookie))
    (h : lookupProvider site = some p) :
    (login site run).2.count DrvEv.quit = 1 :=
  login_quit_once site p run h

/-- Witness for C1 at the registered site `"flippa"` with a provider that
raises partway through. -/
theorem c1_witness :
    (login (pstr "flippa") (fun _ => .error .timeoutNoVisible)).2.count DrvEv.quit = 1 :=
  c1_quit_exactly_once (pstr "flippa") Provider.flippa
    (fun _ => .error .timeoutNoVisible) rfl

/-! ## C3 -/

/-- C3: a login request whose site identifier is not in the provider registry
gets `HTTPException(400)` with the code's detail string, and no browser
session is provisioned: the driver-lifecycle trace is empty, so
`create_driver` was never called. -/
theorem c3_unknown_site_client_error (site : PyStr)
    (run : Provider → Except SmErr (List Cookie))
    (h : lookupProvider site = none) :
    login site run =
      (.httpError 400 (pstr "Unknown site '" ++ site ++ pstr "'"), []) ∧
    DrvEv.created ∉ (login site run).2 := by
  unfold login
  rw [h]
  simp

/-- Witness for C3 at the unregistered site `"smergers"`. -/
theorem c3_witness :
    login (pstr "smergers") (fun _ => .ok []) =
      (.httpError 400 (pstr "Unknown site '" ++ pstr "smergers" ++ pstr "'"), []) ∧
    DrvEv.created ∉ (login (pstr "smergers") (fun _ => .ok [])).2 :=
  c3_unknown_site_client_error (pstr "smergers") (fun _ => .ok []) (by decide)

/-! ## C10 -/

/-- C10: the provider registry contains exactly the one entry `"flippa"`;
every other site value (including `"smergers"`, whose provider class exists in
the source) takes the 400 path with an empty driver trace, and no trace of any
request ever contains a call into the SMERGERS provider. -/
theorem c10_registry_is_flippa_only :
    LOGIN_PROVIDERS.map Prod.fst = [pstr "flippa"] ∧
    (∀ site run, ¬site = pstr "flippa" →
      login site run =
        (.httpError 400 (pstr "Unknown site '" ++ site ++ pstr "'"), [])) ∧
    (∀ site run, DrvEv.providerCall Provider.smergers ∉ (login site run).2) := by
  refine ⟨rfl, ?_, ?_⟩
  · intro site run h
    unfold login
    rw [lookupProvider_none site h]
  · intro site run
    cases hl : lookupProvider site with
    | none => unfold login; rw [hl]; simp
    | some p =>
      have hp := lookupProvider_eq_flippa site p hl
      subst hp
      unfold login
      rw [hl]
      cases hr : run Provider.flippa <;> simp [hr]

/-- Witness for C10: the `"smergers"` request takes the 400 path, and the
`"flippa"` request never calls into the SMERGERS provider. -/
theorem c10_witness :
    login (pstr "smergers") (fun _ => .ok []) =
      (.httpError 400 (pstr "Unknown site '" ++ pstr "smergers" ++ pstr "'"), []) ∧
    DrvEv.providerCall Provider.smergers ∉ (login (pstr "flippa") (fun _ => .ok [])).2 :=
  ⟨c10_registry_is_flippa_only.2.1 (pstr "smergers") (fun _ => .ok []) (by decide),
   c10_registry_is_flippa_only.2.2 (pstr "flippa") (fun _ => .ok [])⟩

/-! ## C5 -/

/-- C5: when the URL after navigation is on the disallowed Google OAuth domain
(and the page rendered at all), the engine raises the Google-redirect error —
a constructor distinct from the generic field-location timeout — and the trace
stops at navigation: no field-location attempt is ever made. -/
theorem c5_redirect_error_before_field_location (w : SmWorld)
    (hb : w.bodyPresent = true)
    (hg : onGoogle w.url0 w.title0 = true) :
    smergers_login w = (.error (.googleRedirect w.url0 w.title0), [Ev.navigate]) ∧
    SmErr.googleRedirect w.url0 w.title0 ≠ SmErr.timeoutNoVisible ∧
    Ev.fieldLocate ∉ (smergers_login w).2 := by
  have h1 : smergers_login w = (.error (.googleRedirect w.url0 w.title0), [Ev.navigate]) := by
    unfold smergers_login
    rw [hb, hg]
    simp
  refine ⟨h1, by simp, ?_⟩
  rw [h1]
  simp

/-- Witness for C5 on a world navigated to `accounts.google.com`. -/
theorem c5_witness :
    smergers_login wGoogle =
      (.error (.googleRedirect wGoogle.url0 wGoogle.title0), [Ev.navigate]) ∧
    SmErr.googleRedirect wGoogle.url0 wGoogle.title0 ≠ SmErr.timeoutNoVisible ∧
    Ev.fieldLocate ∉ (smergers_login wGoogle).2 :=
  c5_redirect_error_before_field_location wGoogle rfl (by decide)

/-! ## Helper lemmas about the SMERGERS engine's control flow -/

/-- With a password field already visible, `_ensure_login_tab` returns at once
without clicking anything. -/
theorem ensure_login_tab_pw0 (w : SmWorld) (h : w.hasPw0 = true) :
    ensure_login_tab w = (.ok (), []) := by
  simp [ensure_login_tab, h]

/-- `_ensure_login_tab` succeeds when a password field is visible on entry or
at its final check. -/
theorem ensure_ok_of_pw (w : SmWorld) (h : (w.hasPw0 || w.hasPw2) = true) :
    (ensure_login_tab w).1 = .ok () := by
  unfold ensure_login_tab
  cases hp0 : w.hasPw0 with
  | true => simp
  | false =>
    rw [hp0] at h
    simp only [Bool.false_or] at h
    simp [h]

/-- Every event `_ensure_login_tab` emits is a tab-activation click. -/
theorem ensure_all_tab_clicks (w : SmWorld) :
    ∀ e ∈ (ensure_login_tab w).2, isTabClickEv e = true := by
  intro e he
  unfold ensure_login_tab at he
  cases hp0 : w.hasPw0 <;> simp [hp0, List.mem_append, List.mem_map] at he
  rcases he with ⟨x, -, rfl⟩ | ⟨-, x, -, rfl⟩ <;> rfl

/-- `_ensure_login_tab` never emits the fallback submit click. -/
theorem ensure_no_submit_fallback (w : SmWorld) :
    (ensure_login_tab w).2.any isSubmitFallbackEv = false := by
  rw [List.any_eq_false]
  intro e he
  have := ensure_all_tab_clicks w e he
  cases e <;> simp_all [isTabClickEv, isSubmitFallbackEv]

/-- An attempt that gets past credential entry and does not end on the Google
OAuth domain returns the session's cookies. -/
theorem smergers_result_of_reaches (w : SmWorld)
    (h : reachesSubmit w = true) (hgf : onGoogle w.urlF w.titleF = false) :
    (smergers_login w).1 = .ok w.cookies := by
  simp only [reachesSubmit, Bool.and_eq_true] at h
  obtain ⟨⟨⟨⟨⟨⟨hb, hg⟩, hpw⟩, hqe⟩, hqp⟩, hse⟩, hsp⟩ := h
  rw [Bool.not_eq_true'] at hg
  unfold smergers_login
  rw [hb, hg]
  simp only [Bool.not_true, Bool.false_eq_true, if_false]
  rw [ensure_ok_of_pw w hpw]
  cases hfe : find_visible_in w.qEmail EMAIL_SELECTORS findFuel with
  | error e => rw [hfe] at hqe; simp [Except.isOk, Except.toBool] at hqe
  | ok el =>
    cases hfp : find_visible_in w.qPass PASSWORD_SELECTORS findFuel with
    | error e => rw [hfp] at hqp; simp [Except.isOk, Except.toBool] at hqp
    | ok el' => simp [hfe, hfp, hse, hsp, hgf]

/-! ## C8 -/

/-- C8: when a visible and enabled password field is already present as
surface discovery begins (`_has_visible_password` true on entry), the engine
performs no tab-activation click anywhere in the attempt — and the engine has
no multi-step advancement click at all — so credentials are filled without any
spurious click. -/
theorem c8_no_spurious_clicks (w : SmWorld) (h : w.hasPw0 = true) :
    (smergers_login w).2.all (fun e => !isTabClickEv e) = true := by
  have hens := ensure_login_tab_pw0 w h
  unfold smergers_login
  rw [hens]
  repeat' split
  all_goals simp [isTabClickEv]

/-- Witness for C8 on a world whose password field is visible immediately. -/
theorem c8_witness :
    (smergers_login baseWorld).2.all (fun e => !isTabClickEv e) = true :=
  c8_no_spurious_clicks baseWorld rfl

/-! ## C9 -/

/-- C9 (amended): the engine falls back to clicking the best-guess submit
control exactly when sending Enter in the password field raises — the page
state after Enter is never consulted. -/
theorem c9_fallback_iff_enter_raises (w : SmWorld) (h : reachesSubmit w = true) :
    (smergers_login w).2.any isSubmitFallbackEv = !w.enterOk := by
  simp only [reachesSubmit, Bool.and_eq_true] at h
  obtain ⟨⟨⟨⟨⟨⟨hb, hg⟩, hpw⟩, hqe⟩, hqp⟩, hse⟩, hsp⟩ := h
  rw [Bool.not_eq_true'] at hg
  unfold smergers_login
  rw [hb, hg]
  simp only [Bool.not_true, Bool.false_eq_true, if_false]
  rw [ensure_ok_of_pw w hpw]
  cases hfe : find_visible_in w.qEmail EMAIL_SELECTORS findFuel with
  | error e => rw [hfe] at hqe; simp [Except.isOk, Except.toBool] at hqe
  | ok el =>
    cases hfp : find_visible_in w.qPass PASSWORD_SELECTORS findFuel with
    | error e => rw [hfp] at hqp; simp [Except.isOk, Except.toBool] at hqp
    | ok el' =>
      cases hfin : onGoogle w.urlF w.titleF <;>
        cases hek : w.enterOk <;>
          simp [hfe, hfp, hse, hsp, hfin, hek, List.any_append,
            ensure_no_submit_fallback, isSubmitFallbackEv]

/-- A world whose Enter keystroke on the password field raises. -/
def wEnterFails : SmWorld := { baseWorld with enterOk := false }

/-- Witness for C9's amended statement: when Enter raises, the fallback click
occurs. -/
theorem c9_witness :
    (smergers_login wEnterFails).2.any isSubmitFallbackEv = !wEnterFails.enterOk :=
  c9_fallback_iff_enter_raises wEnterFails (by decide)

/-- A world where the Enter keystroke succeeds but the page state does not
change. -/
def wEnterNoChange : SmWorld := { baseWorld with pageChangedAfterEnter := false }

/-- Counterexample to C9 as stated: the Enter keystroke succeeded, the page
state did not change, and yet the engine performs no fallback submit click —
the code keys the fallback on the keystroke raising, not on page state. -/
theorem c9_counterexample :
    reachesSubmit wEnterNoChange = true ∧
    wEnterNoChange.pageChangedAfterEnter = false ∧
    (smergers_login wEnterNoChange).2.any isSubmitFallbackEv = false := by
  refine ⟨by decide, rfl, by decide⟩

/-! ## C7 -/

/-- C7 (amended): a timed-out outcome verification is non-fatal, and an
attempt that reaches the verification step returns whatever cookies the
session holds — for SMERGERS provided the final URL/title is not on the
disallowed Google OAuth domain, and for Flippa unconditionally; in both
`verifiedInTime` (whether the positive success signal was observed within the
timeout) is left entirely unconstrained. -/
theorem c7_verification_timeout_soft (w : SmWorld) (fw : FlippaWorld)
    (h1 : reachesSubmit w = true) (h2 : onGoogle w.urlF w.titleF = false)
    (h3 : flippaReachesWait fw = true) :
    (smergers_login w).1 = .ok w.cookies ∧ flippa_login fw = .ok fw.cookies := by
  refine ⟨smergers_result_of_reaches w h1 h2, ?_⟩
  simp only [flippaReachesWait, Bool.and_eq_true] at h3
  obtain ⟨⟨⟨⟨⟨⟨hn, he⟩, hp⟩, hte⟩, htp⟩, hbf⟩, hcb⟩ := h3
  simp [flippa_login, hn, he, hp, hte, htp, hbf, hcb]

/-- A SMERGERS world whose verification wait times out (no success signal)
but which stays on the target domain. -/
def wSoft : SmWorld := { baseWorld with verifiedInTime := false }

/-- A benign Flippa world. -/
def fwBase : FlippaWorld :=
  ⟨true, true, true, true, true, true, true, true,
    [⟨some (pstr "flippa_session"), some (pstr "tok")⟩]⟩

/-- A Flippa world whose verification wait times out. -/
def fwSoft : FlippaWorld := { fwBase with verifiedInTime := false }

/-- Witness for C7 on worlds whose verification timed out: cookies are still
returned. -/
theorem c7_witness :
    (smergers_login wSoft).1 = .ok wSoft.cookies ∧
    flippa_login fwSoft = .ok fwSoft.cookies :=
  c7_verification_timeout_soft wSoft fwSoft (by decide) (by decide) (by decide)

/-- A world that reaches verification but whose final URL is on the Google
OAuth domain. -/
def wOauthEnd : SmWorld :=
  { baseWorld with
    urlF := pstr "https://accounts.google.com/o/oauth2/auth"
    titleF := pstr "Google Accounts"
    verifiedInTime := false }

/-- Counterexample to C7 as stated: this attempt reaches the verification
step, yet the engine raises the Google-redirect error instead of returning the
session's cookies — `SmergersLogin.login` re-checks `_fail_if_google` after
the verification wait. -/
theorem c7_counterexample :
    reachesSubmit wOauthEnd = true ∧
    (smergers_login wOauthEnd).1 =
      .error (.googleRedirect (pstr "https://accounts.google.com/o/oauth2/auth")
        (pstr "Google Accounts")) := by
  refine ⟨by decide, by decide⟩

/-! ## C4 -/

/-- C4 (amended): any element `_click_login_tab` clicks is displayed, enabled,
its normalized text never contains `"login with"`, and that text equals
`"login"` or ends with `" login"` or starts with `"login "` — the code accepts
these fuzzy matches, not only the exact label. -/
theorem c4_click_filter (cs tabs : List Element) (e : Element)
    (h : click_login_tab cs tabs = some e) :
    containsSub (pstr "login with") (normTxt e.text) = false ∧
    (normTxt e.text == pstr "login" ||
      (pstr " login").isSuffixOf (normTxt e.text) ||
      (pstr "login ").isPrefixOf (normTxt e.text)) = true ∧
    e.displayed = true ∧ e.enabled = true := by
  unfold click_login_tab at h
  cases hf : cs.find? (fun x => is_login_tab x && x.clickOk) with
  | some e' =>
    rw [hf] at h
    cases h
    have hp := List.find?_some hf
    simp only [is_login_tab, Bool.and_eq_true] at hp
    obtain ⟨⟨⟨hd, hen⟩, hc, hm⟩, -⟩ := hp
    exact ⟨by rw [← Bool.not_eq_true']; exact hc, hm, hd, hen⟩
  | none =>
    rw [hf] at h
    have hp := List.find?_some h
    simp only [fallbackTabPred, Bool.and_eq_true, beq_iff_eq] at hp
    obtain ⟨⟨⟨htxt, hd⟩, hen⟩, -⟩ := hp
    rw [htxt]
    exact ⟨by decide, by decide, hd, hen⟩

/-- The modal tab the SMERGERS page actually shows: its label is exactly
`LOGIN`. -/
def loginTab : Element := ⟨pstr "LOGIN", true, true, true⟩

/-- Witness for C4's amended statement on the exact `LOGIN` tab. -/
theorem c4_witness :
    containsSub (pstr "login with") (normTxt loginTab.text) = false ∧
    (normTxt loginTab.text == pstr "login" ||
      (pstr " login").isSuffixOf (normTxt loginTab.text) ||
      (pstr "login ").isPrefixOf (normTxt loginTab.text)) = true ∧
    loginTab.displayed = true ∧ loginTab.enabled = true :=
  c4_click_filter [loginTab] [] loginTab (by decide)

/-- A displayed, enabled, clickable element labelled `Member Login`: not an
exact match for the tab text. -/
def memberLoginTab : Element := ⟨pstr "Member Login", true, true, true⟩

/-- Counterexample to C4 as stated: `_click_login_tab` clicks the element
labelled `Member Login`, whose label is not an exact case-insensitive match
for `"login"` — the code also accepts labels merely ending in `" login"` or
starting with `"login "`. -/
theorem c4_counterexample :
    click_login_tab [memberLoginTab] [] = some memberLoginTab ∧
    normTxt memberLoginTab.text ≠ pstr "login" := by
  refine ⟨by decide, by decide⟩

/-! ## C6 -/

/-- A scan over selectors none of which yields a visible, enabled element
finds nothing. -/
theorem scanSels_none (f : PyStr → List Element) (sels : List PyStr)
    (h : ∀ s ∈ sels, firstVisible (f s) = none) :
    scanSels f sels = none := by
  induction sels with
  | nil => rfl
  | cons s rest ih =>
    unfold scanSels
    rw [h s (by simp)]
    exact ih (fun s' hs' => h s' (by simp [hs']))

/-- When every poll of every selector comes back without a visible, enabled
element, `_find_visible_in` exhausts any poll budget and raises its timeout. -/
theorem find_visible_in_exhausts (q : Nat → PyStr → List Element)
    (sels : List PyStr) (h : ∀ t s, s ∈ sels → firstVisible (q t s) = none) :
    ∀ fuel, find_visible_in q sels fuel = .error () := by
  intro fuel
  induction fuel with
  | zero => rfl
  | succ t ih =>
    unfold find_visible_in
    rw [scanSels_none (q t) sels (fun s hs => h t s hs)]
    exact ih

/-- C6 (amended): when every email-field probe exhausts its bounded timeout
without a visible and enabled element, the attempt fails with the
field-location timeout exception, whose message is the fixed string of
`_find_visible_in` (it embeds neither URL nor title), and a handler running
such a failing provider still releases the driver exactly once. -/
theorem c6_probe_timeout (w : SmWorld)
    (hb : w.bodyPresent = true) (hg : onGoogle w.url0 w.title0 = false)
    (hpw : (w.hasPw0 || w.hasPw2) = true)
    (hq : ∀ t s, s ∈ EMAIL_SELECTORS → firstVisible (w.qEmail t s) = none) :
    (smergers_login w).1 = .error .timeoutNoVisible ∧
    SmErr.message .timeoutNoVisible =
      pstr "No visible/enabled element found for selectors (container-scoped)" ∧
    (login (pstr "flippa") (fun _ => (smergers_login w).1)).2.count DrvEv.quit = 1 := by
  have hres : (smergers_login w).1 = .error .timeoutNoVisible := by
    unfold smergers_login
    rw [hb, hg]
    simp only [Bool.not_true, Bool.false_eq_true, if_false]
    rw [ensure_ok_of_pw w hpw]
    rw [find_visible_in_exhausts w.qEmail EMAIL_SELECTORS hq findFuel]
  exact ⟨hres, rfl,
    login_quit_once (pstr "flippa") Provider.flippa _ rfl⟩

/-- A world whose email probes never find anything (the query oracle always
answers with an empty element list). -/
def wTimeout : SmWorld := { baseWorld with qEmail := fun _ _ => [] }

/-- Counterexample to C6 as stated: the probe-exhausted attempt fails with the
generic timeout, and its message contains neither the current URL nor the page
title. -/
theorem c6_counterexample :
    (smergers_login wTimeout).1 = .error .timeoutNoVisible ∧
    containsSub wTimeout.url0 (SmErr.message .timeoutNoVisible) = false ∧
    containsSub wTimeout.title0 (SmErr.message .timeoutNoVisible) = false := by
  refine ⟨by decide, by decide, by decide⟩

/-- Witness for C6's amended statement. -/
theorem c6_witness :
    (smergers_login wTimeout).1 = .error .timeoutNoVisible ∧
    SmErr.message .timeoutNoVisible =
      pstr "No visible/enabled element found for selectors (container-scoped)" ∧
    (login (pstr "flippa") (fun _ => (smergers_login wTimeout).1)).2.count DrvEv.quit = 1 :=
  c6_probe_timeout wTimeout rfl (by decide) (by decide)
    (fun _ _ _ => rfl)

/-! ## Helper lemmas for the cookie-header serialization -/

/-- Unfolding equation for `hasSep` on a two-or-more-element list. -/
theorem hasSep_cons_pair (a d : Char) (r : PyStr) :
    hasSep (a :: d :: r) = ((a = ';' && d = ' ') || hasSep (d :: r)) := rfl

/-- Unfolding equation for `splitSep` on a two-or-more-element list. -/
theorem splitSep_cons2 (c d : Char) (r : PyStr) :
    splitSep (c :: d :: r) =
      if c = ';' && d = ' ' then [] :: splitSep r
      else
        match splitSep (d :: r) with
        | [] => [[c]]
        | h :: t => (c :: h) :: t := rfl

/-- Splitting a separator-free string followed by a separator peels off that
string as the first chunk. -/
theorem splitSep_append_sep (ch : PyStr) (l : PyStr) (h : hasSep ch = false) :
    splitSep (ch ++ ';' :: ' ' :: l) = ch :: splitSep l := by
  induction ch with
  | nil =>
    show splitSep (';' :: ' ' :: l) = [] :: splitSep l
    rw [splitSep_cons2]
    rfl
  | cons a ch ih =>
    cases ch with
    | nil =>
      show splitSep (a :: ';' :: ' ' :: l) = [a] :: splitSep l
      rw [splitSep_cons2]
      rw [show (decide ((';' : Char) = ' ')) = false from rfl, Bool.and_false]
      simp only [Bool.false_eq_true, if_false]
      rw [show splitSep (';' :: ' ' :: l) = [] :: splitSep l from by rw [splitSep_cons2]; rfl]
    | cons b ch' =>
      rw [hasSep_cons_pair] at h
      rw [Bool.or_eq_false_iff] at h
      obtain ⟨h1, h2⟩ := h
      have ih' := ih h2
      simp only [List.cons_append] at ih' ⊢
      rw [splitSep_cons2, h1]
      simp only [Bool.false_eq_true, if_false]
      rw [ih']

/-- A separator-free string splits into the single chunk that is itself. -/
theorem splitSep_noSep (ch : PyStr) (h : hasSep ch = false) : splitSep ch = [ch] := by
  induction ch with
  | nil => rfl
  | cons a ch ih =>
    cases ch with
    | nil => rfl
    | cons b ch' =>
      rw [hasSep_cons_pair] at h
      rw [Bool.or_eq_false_iff] at h
      obtain ⟨h1, h2⟩ := h
      rw [splitSep_cons2, h1]
      simp only [Bool.false_eq_true, if_false]
      rw [ih h2]

/-- Splitting is a left inverse of joining for nonempty lists of
separator-free chunks. -/
theorem splitSep_joinSep (x : PyStr) (rest : List PyStr)
    (h : ∀ ch ∈ x :: rest, hasSep ch = false) :
    splitSep (joinSep (x :: rest)) = x :: rest := by
  induction rest generalizing x with
  | nil => exact splitSep_noSep x (h x (by simp))
  | cons y r ih =>
    show splitSep (x ++ ';' :: ' ' :: joinSep (y :: r)) = x :: y :: r
    rw [splitSep_append_sep x _ (h x (by simp))]
    rw [ih y (fun ch hch => h ch (List.mem_cons_of_mem x hch))]

/-- Re-joining the two halves of `splitEq` at an `'='` restores any string
that contains an `'='`. -/
theorem splitEq_rejoin (l : PyStr) (h : '=' ∈ l) :
    (splitEq l).1 ++ '=' :: (splitEq l).2 = l := by
  induction l with
  | nil => cases h
  | cons c rest ih =>
    by_cases hc : c = '='
    · subst hc
      simp [splitEq]
    · have hr : '=' ∈ rest := by
        rcases List.mem_cons.mp h with h1 | h1
        · exact absurd h1.symm hc
        · exact h1
      simp only [splitEq, hc, if_false]
      rw [List.cons_append, ih hr]

/-- Prepending an `'='` cannot create a `"; "` separator. -/
theorem hasSep_eqcons (v : PyStr) (hv : hasSep v = false) :
    hasSep ('=' :: v) = false := by
  cases v with
  | nil => rfl
  | cons w r =>
    rw [hasSep_cons_pair]
    rw [show (decide (('=' : Char) = ';')) = false from rfl]
    simp [hv]

/-- A `name=value` chunk built from separator-free halves is separator-free. -/
theorem hasSep_pair (n v : PyStr) (hn : hasSep n = false) (hv : hasSep v = false) :
    hasSep (n ++ '=' :: v) = false := by
  induction n with
  | nil => exact hasSep_eqcons v hv
  | cons a n' ih =>
    cases n' with
    | nil =>
      show hasSep (a :: '=' :: v) = false
      rw [hasSep_cons_pair]
      rw [show (decide (('=' : Char) = ' ')) = false from rfl, Bool.and_false]
      simp [hasSep_eqcons v hv]
    | cons b n'' =>
      rw [hasSep_cons_pair] at hn
      rw [Bool.or_eq_false_iff] at hn
      obtain ⟨h1, h2⟩ := hn
      have ih' := ih h2
      simp only [List.cons_append] at ih' ⊢
      rw [hasSep_cons_pair, h1]
      simp [ih']

/-- On a list of well-formed cookies the skip-the-incomplete `filterMap`
degenerates to mapping each cookie to its `name=value` string. -/
theorem filterMap_cookiePart_good (cs : List Cookie) (h : cs.all goodCookie = true) :
    cs.filterMap cookiePart = cs.map pairStr := by
  induction cs with
  | nil => rfl
  | cons c cs ih =>
    rw [List.all_cons, Bool.and_eq_true] at h
    obtain ⟨hc, hcs⟩ := h
    unfold goodCookie at hc
    cases hn : c.name with
    | none => rw [hn] at hc; cases hc
    | some n =>
      cases hv : c.value with
      | none => rw [hn, hv] at hc; cases hc
      | some v =>
        have hpart : cookiePart c = some (pairStr c) := by
          unfold cookiePart pairStr
          rw [hn, hv]
          rfl
        simp [List.filterMap_cons, hpart, ih hcs]

/-- A well-formed cookie's `name=value` string is separator-free. -/
theorem pairStr_hasSep (c : Cookie) (h : goodCookie c = true) :
    hasSep (pairStr c) = false := by
  unfold goodCookie at h
  cases hn : c.name with
  | none => rw [hn] at h; cases h
  | some n =>
    cases hv : c.value with
    | none => rw [hn, hv] at h; cases h
    | some v =>
      rw [hn, hv, Bool.and_eq_true, Bool.not_eq_true', Bool.not_eq_true'] at h
      unfold pairStr
      rw [hn, hv]
      exact hasSep_pair n v h.1 h.2

/-- Every `name=value` string contains an `'='`. -/
theorem pairStr_mem_eq (c : Cookie) : '=' ∈ pairStr c := by
  unfold pairStr
  simp

/-- The join of a nonempty chunk list whose head is nonempty is nonempty. -/
theorem joinSep_ne_nil (x : PyStr) (rest : List PyStr) (hx : x ≠ []) :
    joinSep (x :: rest) ≠ [] := by
  cases rest with
  | nil => exact hx
  | cons y r =>
    show x ++ ';' :: ' ' :: joinSep (y :: r) ≠ []
    simp

/-- A `name=value` string is never empty. -/
theorem pairStr_ne_nil (c : Cookie) : pairStr c ≠ [] := by
  unfold pairStr
  simp

/-- Cookies made from chunks always carry both fields, so serializing them
renders every chunk. -/
theorem filterMap_mk_chunks (l : List PyStr) :
    (l.map (fun ch => (⟨some (splitEq ch).1, some (splitEq ch).2⟩ : Cookie))).filterMap
        cookiePart =
      l.map (fun ch => (splitEq ch).1 ++ '=' :: (splitEq ch).2) := by
  induction l with
  | nil => rfl
  | cons ch l ih => simp [List.filterMap_cons, cookiePart, ih]

/-- Splitting each chunk at its first `'='` and re-joining restores the
chunks, provided each contains an `'='`. -/
theorem map_rejoin_chunks (l : List PyStr) (h : ∀ ch ∈ l, '=' ∈ ch) :
    l.map (fun ch => (splitEq ch).1 ++ '=' :: (splitEq ch).2) = l := by
  induction l with
  | nil => rfl
  | cons ch l ih =>
    rw [List.map_cons, splitEq_rejoin ch (h ch (by simp)),
      ih (fun x hx => h x (List.mem_cons_of_mem ch hx))]

/-- Round trip: serializing, parsing and re-serializing a list of well-formed
cookies reproduces the header string. -/
theorem cookies_to_header_roundtrip (cs : List Cookie) (h : cs.all goodCookie = true) :
    cookies_to_header (parseCookieHeader (cookies_to_header cs)) =
      cookies_to_header cs := by
  cases cs with
  | nil => rfl
  | cons c cs' =>
    have hall := List.all_eq_true.mp h
    have hmap := filterMap_cookiePart_good _ h
    have hhs : ∀ ch ∈ pairStr c :: cs'.map pairStr, hasSep ch = false := by
      intro ch hch
      rw [← List.map_cons] at hch
      obtain ⟨x, hx, rfl⟩ := List.mem_map.mp hch
      exact pairStr_hasSep x (hall x hx)
    have heqm : ∀ ch ∈ (c :: cs').map pairStr, '=' ∈ ch := by
      intro ch hch
      obtain ⟨x, hx, rfl⟩ := List.mem_map.mp hch
      exact pairStr_mem_eq x
    have hsplit : splitSep (joinSep ((c :: cs').map pairStr)) = (c :: cs').map pairStr := by
      rw [List.map_cons]
      exact splitSep_joinSep _ _ hhs
    have hne : joinSep ((c :: cs').map pairStr) ≠ [] := by
      rw [List.map_cons]
      exact joinSep_ne_nil _ _ (pairStr_ne_nil c)
    have hnem : (joinSep ((c :: cs').map pairStr)).isEmpty = false := by
      cases hj : joinSep ((c :: cs').map pairStr) with
      | nil => exact absurd hj hne
      | cons a t => rfl
    have h1 : cookies_to_header (c :: cs') = joinSep ((c :: cs').map pairStr) := by
      unfold cookies_to_header
      rw [hmap]
    rw [h1]
    simp only [parseCookieHeader, hnem, Bool.false_eq_true, if_false]
    rw [hsplit]
    unfold cookies_to_header
    rw [filterMap_mk_chunks, map_rejoin_chunks _ heqm]

/-! ## C2 -/

/-- C2 (amended): `cookies_to_header` renders each cookie as `name=value` and
joins them with `"; "` in input order, and for cookies whose names and values
are present and free of the `"; "` separator the serialization is idempotent:
parsing the header back into cookies and re-serializing yields the identical
string. -/
theorem c2_serialize_order_and_roundtrip (cs : List Cookie)
    (h : cs.all goodCookie = true) :
    cookies_to_header cs = joinSep (cs.map pairStr) ∧
    cookies_to_header (parseCookieHeader (cookies_to_header cs)) =
      cookies_to_header cs := by
  refine ⟨?_, cookies_to_header_roundtrip cs h⟩
  unfold cookies_to_header
  rw [filterMap_cookiePart_good cs h]

/-- Two realistic session cookies. -/
def okCookies : List Cookie :=
  [⟨some (pstr "sessionid"), some (pstr "abc123")⟩,
   ⟨some (pstr "csrftoken"), some (pstr "xyz")⟩]

/-- Witness for C2's amended statement on two realistic cookies. -/
theorem c2_witness :
    cookies_to_header okCookies = joinSep (okCookies.map pairStr) ∧
    cookies_to_header (parseCookieHeader (cookies_to_header okCookies)) =
      cookies_to_header okCookies :=
  c2_serialize_order_and_roundtrip okCookies (by decide)

/-- A single cookie whose value contains the separator `"; "`. -/
def badCookies : List Cookie := [⟨some (pstr "a"), some (pstr "b; c")⟩]

/-- Counterexample to C2 as stated (for every list of cookies): the cookie
`a=b; c` serializes to `"a=b; c"`, which parses back as the two cookies `a=b`
and `c=` and re-serializes to the different string `"a=b; c="`. -/
theorem c2_counterexample :
    cookies_to_header badCookies = pstr "a=b; c" ∧
    cookies_to_header (parseCookieHeader (cookies_to_header badCookies)) =
      pstr "a=b; c=" ∧
    cookies_to_header (parseCookieHeader (cookies_to_header badCookies)) ≠
      cookies_to_header badCookies := by
  refine ⟨by decide, by decide, by decide⟩

end SeleniumLogin
